import Mathlib

/-!
Verification of the Business-DNA consistency pipeline of the
olympiccoders-hackathon repository.

We shallowly embed the Python modules the claims are about:

* `app/tools/flow_generator.py`  — the workflow progress tracker
  (`update_workflow_step`);
* `app/tools/design_tokens.py`   — the design-token store
  (`update_design_tokens`, `reset_design_tokens`);
* `app/tools/style_analyzer.py`  — the JSON-or-fallback parse step of
  `analyze_business_dna`;
* `app/tools/code_generator.py`  — the consistency formatter
  `_format_business_dna_for_prompt`.

Python dictionaries are modelled as association lists with the key order of
the source; Python dicts have unique keys, lookups take the first match.
Mutation of the module-level stores is modelled by explicit state passing.
-/

namespace Hackathon

/-- A Python value as it occurs in the token / DNA documents: strings,
integers, float literals (carried by their decimal source text — the only
one in the sources is `1.25`; no arithmetic is ever performed on it),
booleans, `None`, lists and dicts. -/
inductive PyVal where
  | str : String → PyVal
  | int : Int → PyVal
  | floatLit : String → PyVal
  | bool : Bool → PyVal
  | noneV : PyVal
  | list : List PyVal → PyVal
  | dict : List (String × PyVal) → PyVal
  deriving Inhabited

/-- First-match lookup in an association list (Python dict indexing /
`dict.get`; keys are unique in Python dicts). -/
def dlookup {α : Type} : List (String × α) → String → Option α
  | [], _ => Option.none
  | (k, v) :: rest, key => if k = key then some v else dlookup rest key

/-- Python `key in dict`. -/
def dmem {α : Type} (d : List (String × α)) (key : String) : Bool :=
  (dlookup d key).isSome

/-- Python `d[k] = v`: replace the value of an existing key in place,
otherwise append the new binding at the end (Python dicts keep insertion
order and have unique keys, so replacing the first match is exact). -/
def dset {α : Type} : List (String × α) → String → α → List (String × α)
  | [], key, v => [(key, v)]
  | (k, w) :: rest, key, v =>
    if k = key then (k, v) :: rest else (k, w) :: dset rest key v

/-- Python `d.update(us)`: apply `dset` for each binding of `us` in order. -/
def dupdate {α : Type} (d us : List (String × α)) : List (String × α) :=
  us.foldl (fun acc kv => dset acc kv.1 kv.2) d

/-! ## Workflow progress tracker (`app/tools/flow_generator.py`)

`generate_workflow_plan` stores plans in the module-level dict
`_active_workflow_plans`; each step dict always carries the keys
`id`, `title`, `description`, `status` (initialised to `"pending"`),
`linkedComponentId` and `linkedComponentName` (initialised to `None`),
so a step is modelled as a record with those fields.  The sandbox
round-trips (`_update_workflow_in_sandbox` and friends) catch every
exception internally and their results are only logged, so they do not
affect the store or the returned envelope and are not modelled. -/

/-- One workflow step (a step dict of `generate_workflow_plan`). -/
structure Step where
  id : String
  title : String
  description : String
  status : String
  linkedComponentId : Option String
  linkedComponentName : Option String

/-- One stored workflow plan (a value of `_active_workflow_plans`). -/
structure Workflow where
  taskDescription : String
  steps : List Step
  componentId : Option String

/-- The dict returned by `update_workflow_step`; keys absent from a branch
are `Option.none`. -/
structure UpdateResult where
  success : Bool
  error : Option String
  stepUpdated : Option String
  newStatus : Option String
  progress : Option Nat
  completedSteps : Option Nat
  totalSteps : Option Nat
  aiNotes : Option String

def failureResult (msg : String) : UpdateResult :=
  ⟨false, some msg, Option.none, Option.none, Option.none, Option.none,
    Option.none, Option.none⟩

/-- Python `repr` of a list of strings, as interpolated into the error
messages (`['a', 'b']`). -/
def pyListRepr (xs : List String) : String :=
  "[" ++ String.intercalate ", " (xs.map fun s => "\x27" ++ s ++ "\x27") ++ "]"

/-- Python `round` on the exact rational `a / n` (banker's rounding: halves
go to the even neighbour), used for `round((completed / len(steps)) * 100)`
with `a = 100 * completed`, `n = len(steps)`.  The Python expression rounds
the IEEE double closest to `a / n`; on the exact ratios of step counts
arising here the two agree. -/
def pythonRound (a n : Nat) : Nat :=
  let q := a / n
  let r := a % n
  if 2 * r < n then q
  else if n < 2 * r then q + 1
  else if q % 2 = 0 then q else q + 1

/-- Python truthiness test `if linked_component_id:` applied to an optional
string argument: `None` and `""` keep the old value, anything else
overwrites it. -/
def applyLinked (nv old : Option String) : Option String :=
  match nv with
  | some s => if s = "" then old else some s
  | Option.none => old

/-- The updated first step matching `step_id` (body of the `for` loop of
`update_workflow_step`, lines 918-938): a step that is `complete` keeps its
status when a different status is requested, but linked-component metadata
is still applied. -/
def updateOneStep (status : String) (lcid lcname : Option String)
    (s : Step) : Step :=
  if s.status = "complete" ∧ ¬ status = "complete" then
    ⟨s.id, s.title, s.description, s.status,
      applyLinked lcid s.linkedComponentId,
      applyLinked lcname s.linkedComponentName⟩
  else
    ⟨s.id, s.title, s.description, status,
      applyLinked lcid s.linkedComponentId,
      applyLinked lcname s.linkedComponentName⟩

/-- The `for step in steps` loop of `update_workflow_step`: update the first
step whose id is `step_id` (the loop `break`s), report whether it was
found. -/
def updateStepList (stepId status : String) (lcid lcname : Option String) :
    List Step → List Step × Bool
  | [] => ([], false)
  | s :: rest =>
    if s.id = stepId then (updateOneStep status lcid lcname s :: rest, true)
    else
      let r := updateStepList stepId status lcid lcname rest
      (s :: r.1, r.2)

/-- Python `sum(1 for s in steps if s["status"] == "complete")`. -/
def countComplete (steps : List Step) : Nat :=
  steps.countP fun s => s.status == "complete"

/-- Embeds `update_workflow_step` (flow_generator.py lines 863-979), returning the
result envelope and the new `_active_workflow_plans` store. -/
def update_workflow_step (plans : List (String × Workflow))
    (workflowId stepId status : String)
    (linkedComponentId linkedComponentName : Option String) :
    UpdateResult × List (String × Workflow) :=
  match dlookup plans workflowId with
  | Option.none =>
      (failureResult ("Workflow \x27" ++ workflowId ++
        "\x27 not found. Available: " ++ pyListRepr (plans.map Prod.fst)),
        plans)
  | some w =>
      let r := updateStepList stepId status linkedComponentId
        linkedComponentName w.steps
      if r.2 then
        let steps' := r.1
        let completed := countComplete steps'
        let progress := pythonRound (100 * completed) steps'.length
        let w' : Workflow := ⟨w.taskDescription, steps', w.componentId⟩
        (⟨true, Option.none, some stepId, some status, some progress,
          some completed, some steps'.length,
          some ("Step \x27" ++ stepId ++ "\x27 marked as " ++ status ++
            ". Progress: " ++ toString completed ++ "/" ++
            toString steps'.length ++ " (" ++ toString progress ++ "%)")⟩,
          dset plans workflowId w')
      else
        (failureResult ("Step \x27" ++ stepId ++
          "\x27 not found in workflow. Available: " ++
          pyListRepr (w.steps.map Step.id)), plans)

/-- Status of a given step of a given plan, for stating claims. -/
def stepStatus (plans : List (String × Workflow)) (workflowId stepId : String) :
    Option String :=
  (dlookup plans workflowId).bind fun w =>
    (w.steps.find? fun s => s.id == stepId).map Step.status

/-- The rank of a status in the order pending < in_progress < complete
used by the specification. -/
def statusRank : String → Nat
  | "in_progress" => 1
  | "complete" => 2
  | _ => 0

/-! ## Design-token store (`app/tools/design_tokens.py`) -/

/-- The default token document (`_design_tokens_store` literal, lines 17-81;
`reset_design_tokens` rebuilds the same literal, lines 381-445).  The
`metadata.last_updated` leaf is `None` in the module literal and a timestamp
string after a reset, so it is a parameter. -/
def defaultColors : List (String × PyVal) :=
  [("primary", .str "#3b82f6"), ("secondary", .str "#6366f1"),
   ("accent", .str "#8b5cf6"), ("background", .str "#0f172a"),
   ("surface", .str "#1e293b"), ("text", .str "#f8fafc"),
   ("text_muted", .str "#94a3b8"), ("success", .str "#22c55e"),
   ("warning", .str "#f59e0b"), ("error", .str "#ef4444")]

def defaultTokens (lastUpdated : PyVal) : List (String × PyVal) :=
  [("colors", .dict defaultColors),
   ("typography", .dict [
      ("font_family", .str "Inter, system-ui, sans-serif"),
      ("font_family_mono", .str "JetBrains Mono, monospace"),
      ("heading_weight", .str "600"), ("body_weight", .str "400"),
      ("base_size", .str "16px"), ("scale_ratio", .floatLit "1.25")]),
   ("spacing", .dict [
      ("unit", .str "4px"), ("xs", .str "4px"), ("sm", .str "8px"),
      ("md", .str "16px"), ("lg", .str "24px"), ("xl", .str "32px"),
      ("2xl", .str "48px")]),
   ("borders", .dict [
      ("radius_sm", .str "4px"), ("radius_md", .str "8px"),
      ("radius_lg", .str "12px"), ("radius_full", .str "9999px"),
      ("width", .str "1px")]),
   ("shadows", .dict [
      ("sm", .str "0 1px 2px 0 rgb(0 0 0 / 0.05)"),
      ("md", .str "0 4px 6px -1px rgb(0 0 0 / 0.1)"),
      ("lg", .str "0 10px 15px -3px rgb(0 0 0 / 0.1)")]),
   ("components", .dict [
      ("button", .dict [("padding", .str "8px 16px"),
        ("border_radius", .str "8px"), ("font_weight", .str "500")]),
      ("card", .dict [("padding", .str "16px"),
        ("border_radius", .str "12px"), ("background", .str "#1e293b")]),
      ("input", .dict [("padding", .str "8px 12px"),
        ("border_radius", .str "6px"), ("border_color", .str "#334155")])]),
   ("metadata", .dict [
      ("name", .str "Default Design System"),
      ("description", .str "Default dark theme design tokens"),
      ("last_updated", lastUpdated)])]

/-- The store at module initialisation. -/
def initialTokensStore : List (String × PyVal) := defaultTokens .noneV

/-- Python `_design_tokens_store["metadata"]["last_updated"] = time.strftime(...)`
(line 179).  The `metadata` value is always a dict here (the default is,
and every write stores a dict). -/
def setLastUpdated (store : List (String × PyVal)) (now : String) :
    List (String × PyVal) :=
  match dlookup store "metadata" with
  | some (.dict m) =>
      dset store "metadata" (.dict (dset m "last_updated" (.str now)))
  | _ => store

/-- The envelope returned by `update_design_tokens`. -/
structure TokensResult where
  success : Bool
  error : Option String
  availableCategories : Option (List String)
  tokens : Option (List (String × PyVal))
  changes : Option (List String)

/-- Embeds `update_design_tokens` (design_tokens.py lines 136-188), returning the
envelope and the new `_design_tokens_store`.  `now` stands for the
`time.strftime` timestamp. -/
def update_design_tokens (store : List (String × PyVal)) (category : String)
    (updates : List (String × PyVal)) (merge : Bool) (now : String) :
    TokensResult × List (String × PyVal) :=
  if ¬ dmem store category then
    (⟨false, some ("Unknown category: " ++ category),
      some (store.map Prod.fst), Option.none, Option.none⟩, store)
  else
    let store₁ :=
      if merge then
        match dlookup store category with
        | some (.dict d) => dset store category (.dict (dupdate d updates))
        | _ => dset store category (.dict updates)
      else dset store category (.dict updates)
    let store₂ := setLastUpdated store₁ now
    (⟨true, Option.none, Option.none,
      (dlookup store₂ category).map (fun v => [(category, v)]),
      some (updates.map Prod.fst)⟩, store₂)

/-- Embeds `reset_design_tokens` (lines 370-453): replaces the whole store with the
default literal, with `metadata.last_updated` set to the current timestamp.
The returned envelope is a constant success message and carries no data, so
only the new store is modelled. -/
def reset_design_tokens (now : String) : List (String × PyVal) :=
  defaultTokens (.str now)

/-- One call against the token store, for stating properties of arbitrary
call sequences. -/
inductive TokenOp where
  | update (category : String) (updates : List (String × PyVal))
      (merge : Bool) (now : String)
  | reset (now : String)

def runTokenOp (store : List (String × PyVal)) : TokenOp →
    List (String × PyVal)
  | .update c us m now => (update_design_tokens store c us m now).2
  | .reset now => reset_design_tokens now

def runTokenOps (store : List (String × PyVal)) (ops : List TokenOp) :
    List (String × PyVal) :=
  ops.foldl runTokenOp store

/-! ## DNA extraction parse step (`app/tools/style_analyzer.py`)

`analyze_business_dna` calls the vision backend, then parses the response
text (lines 361-379).  The backend and `json.loads` are external; the JSON
parser is abstracted as a `String → Option PyVal` parameter — `Option.none`
is a `json.JSONDecodeError`. -/

/-- Python substring test `sub in s` (for non-empty `sub`). -/
def pyContains (s sub : String) : Bool := 1 < (s.splitOn sub).length

/-- The fence-stripping step (lines 363-367): `split("```json")[1].split("```")[0]`
when a ```` ```json ```` fence is present, else the analogous plain
```` ``` ```` split, else the text unchanged.  The indices are guarded by
the containment tests, so the `getD` defaults are unreachable. -/
def stripCodeFences (text : String) : String :=
  if pyContains text "```json" then
    (((text.splitOn "```json").getD 1 "").splitOn "```").getD 0 ""
  else if pyContains text "```" then
    (((text.splitOn "```").getD 1 "").splitOn "```").getD 0 ""
  else text

/-- The `_metadata` block attached at lines 375-379. -/
def dnaMetadata (imageCount : Nat) : PyVal :=
  .dict [("image_count", .int imageCount),
    ("model", .str "gemini-2.5-pro"),
    ("extraction_type", .str "pixel_perfect")]

/-- Outcome of the parse-and-store phase of `analyze_business_dna`. -/
structure DnaParseResult where
  success : Bool
  businessDna : Option (List (String × PyVal))
  error : Option String

/-- Lines 361-379 of `analyze_business_dna`: strip fences, `json.loads` the
stripped text (`String.trim` stands for `str.strip`), absorb a parse error
into a `{"raw_analysis": analysis_text}` fallback document, then attach
`_metadata`.  When `json.loads` yields a non-dict, the subscript assignment
`business_dna["_metadata"] = ...` raises `TypeError`, which the enclosing
`except` turns into a failure envelope (the interpreter's message text is
not modelled). -/
def parseDnaResponse (parseJson : String → Option PyVal)
    (analysisText : String) (imageCount : Nat) : DnaParseResult :=
  let cleaned := stripCodeFences analysisText
  match parseJson cleaned.trim with
  | Option.none =>
      ⟨true, some (dset [("raw_analysis", PyVal.str analysisText)]
        "_metadata" (dnaMetadata imageCount)), Option.none⟩
  | some (.dict d) =>
      ⟨true, some (dset d "_metadata" (dnaMetadata imageCount)), Option.none⟩
  | some _ =>
      ⟨false, Option.none, some "Business DNA analysis failed: TypeError"⟩

/-! ## Consistency formatter (`app/tools/code_generator.py`)

`_format_business_dna_for_prompt` (lines 153-427) renders the DNA dict and
the current component-template set into the prompt fragment.  It reads
`has_component_templates()` / `get_component_templates()` from the shared
tool state and performs no writes.  Template values are code strings (that
is what `set_component_templates` stores).  Where Python would raise on a
non-dict value (`.items()` / `.get` on a string), the embedding treats the
value as having no keys; the claims only concern dict-shaped DNA
documents. -/

/-- Python truthiness (the only float literal in the sources, `1.25`, is
truthy). -/
def pyTruthy : PyVal → Bool
  | .str s => s != ""
  | .int i => i != 0
  | .floatLit _ => true
  | .bool b => b
  | .noneV => false
  | .list xs => !xs.isEmpty
  | .dict d => !d.isEmpty

mutual

/-- Python `repr` of a value (single-quoted strings, `True`/`None`, ...). -/
def pyValRepr : PyVal → String
  | .str s => "\x27" ++ s ++ "\x27"
  | .int i => toString i
  | .floatLit t => t
  | .bool b => if b then "True" else "False"
  | .noneV => "None"
  | .list xs => "[" ++ pyValReprList xs ++ "]"
  | .dict d => "\x7b" ++ pyValReprDict d ++ "\x7d"

def pyValReprList : List PyVal → String
  | [] => ""
  | [x] => pyValRepr x
  | x :: y :: xs => pyValRepr x ++ ", " ++ pyValReprList (y :: xs)

def pyValReprDict : List (String × PyVal) → String
  | [] => ""
  | [(k, v)] => "\x27" ++ k ++ "\x27: " ++ pyValRepr v
  | (k, v) :: y :: xs =>
      "\x27" ++ k ++ "\x27: " ++ pyValRepr v ++ ", " ++ pyValReprDict (y :: xs)

end

/-- Python `str(v)` as used by f-string interpolation. -/
def pyStr : PyVal → String
  | .str s => s
  | v => pyValRepr v

def pyTitleAux : List Char → Bool → List Char
  | [], _ => []
  | c :: cs, prevCased =>
    (if c.isAlpha then (if prevCased then c.toLower else c.toUpper) else c)
      :: pyTitleAux cs c.isAlpha

/-- Python `str.title()`: upper-case every letter that follows a
non-letter, lower-case the rest (ASCII token names only occur here). -/
def pyTitle (s : String) : String := ⟨pyTitleAux s.data false⟩

/-- Python `"\n".join(parts)`. -/
def pyJoin (sep : String) : List String → String
  | [] => ""
  | [x] => x
  | x :: y :: xs => x ++ sep ++ pyJoin sep (y :: xs)

/-- Python `"=" * 60`. -/
def eq60 : String := ⟨List.replicate 60 '='⟩

/-- The dict under an optional value; non-dicts contribute no keys. -/
def dgetDict : Option PyVal → List (String × PyVal)
  | some (.dict d) => d
  | _ => []

/-- Python `d.get(key, dflt)` interpolated into an f-string. -/
def pyGetStr (d : List (String × PyVal)) (key dflt : String) : String :=
  match dlookup d key with
  | some v => pyStr v
  | Option.none => dflt

/-- Python `d.get(key)` followed by a truthiness test (`if d.get(key):`). -/
def dgetTruthy (d : List (String × PyVal)) (key : String) : Option PyVal :=
  match dlookup d key with
  | some v => if pyTruthy v then some v else Option.none
  | Option.none => Option.none

def pyTruthyOpt : Option PyVal → Bool
  | some v => pyTruthy v
  | Option.none => false

/-- Lines 168-173: the color palette table. -/
def colorPaletteSection (dna : List (String × PyVal)) : List String :=
  match dlookup dna "colors" with
  | some cv =>
      "\n📎 COLOR PALETTE (use these EXACT hex codes in Tailwind):" ::
      (dgetDict (some cv)).filterMap fun kv =>
        match kv.2 with
        | .str v =>
            if v.startsWith "#" then
              some ("  - " ++ kv.1 ++ ": " ++ v ++ " → use bg-[" ++ v ++
                "], text-[" ++ v ++ "], border-[" ++ v ++ "]")
            else Option.none
        | _ => Option.none
  | Option.none => []

/-- Python `primary.get("bg", dna.get("colors", {}).get("primary_accent", "#4263EB"))`
(line 185). -/
def primaryBg (dna primary : List (String × PyVal)) : String :=
  match dlookup primary "bg" with
  | some v => pyStr v
  | Option.none =>
      match dlookup (dgetDict (dlookup dna "colors")) "primary_accent" with
      | some v => pyStr v
      | Option.none => "#4263EB"

/-- Lines 182-189: the primary-button rules of the `button_variants`
branch. -/
def primaryButtonLines (dna bv : List (String × PyVal)) : List String :=
  "\n🔵 PRIMARY BUTTONS (action buttons like \x27Start\x27, \x27Create\x27, \x27Submit\x27):" ::
  (match dlookup bv "primary" with
   | some (.dict primary) =>
       ["   → Background: bg-[" ++ primaryBg dna primary ++
          "] - MUST be blue/accent, NEVER white!",
        "   → Text: text-white - ALWAYS white on colored buttons!"] ++
       (match dgetTruthy primary "gradient" with
        | some g => ["   → Gradient: " ++ pyStr g]
        | Option.none => [])
   | _ => [])

/-- Lines 191-200: the danger-button rules. -/
def dangerButtonLines (bv : List (String × PyVal)) : List String :=
  "\n🔴 DANGER BUTTONS (destructive actions, \x27START ALL ANALYSIS\x27 style):" ::
  (match dlookup bv "danger" with
   | some (.dict danger) =>
       ["   → Background: bg-[" ++ pyGetStr danger "bg" "#DC2626" ++ "]"] ++
       (match dgetTruthy danger "bg_gradient" with
        | some g => ["   → Gradient: bg-gradient-to-r " ++ pyStr g]
        | Option.none => []) ++
       ["   → Text: text-white"] ++
       (match dgetTruthy danger "shadow" with
        | some g => ["   → Shadow/Glow: " ++ pyStr g]
        | Option.none => [])
   | _ => [])

/-- Lines 202-207: the add/create-button rules. -/
def addButtonLines (bv : List (String × PyVal)) : List String :=
  "\n➕ ADD/CREATE BUTTONS (often have dashed borders):" ::
  (match dlookup bv "add_button" with
   | some (.dict addBtn) =>
       ["   → Background: bg-[" ++ pyGetStr addBtn "bg" "#1A1A1F" ++ "]",
        "   → Border: border " ++ pyGetStr addBtn "border_style" "dashed" ++
          " border-[" ++
          (((pyGetStr addBtn "border" "#3F3F46").replace "1px dashed " "").replace
            "1px dotted " "") ++ "]",
        "   → Text: text-[" ++ pyGetStr addBtn "text" "#9CA3AF" ++ "]"]
   | _ => [])

/-- Lines 210-227: the `elif "components" in dna` button rules. -/
def componentsButtonLines (comp : List (String × PyVal)) : List String :=
  ["\n🔵 PRIMARY BUTTONS:"] ++
  (match dgetTruthy comp "button_primary_bg" with
   | some v => ["   → Background: bg-[" ++ pyStr v ++
       "] - MUST be this color, NEVER white!"]
   | Option.none => []) ++
  ["   → Text: text-[" ++ pyGetStr comp "button_primary_text" "#FFFFFF" ++
    "] - MUST be white on colored buttons!"] ++
  (match dgetTruthy comp "button_danger_bg" with
   | some v =>
       ["\n🔴 DANGER BUTTONS:", "   → Background: bg-[" ++ pyStr v ++ "]"] ++
       (match dgetTruthy comp "button_danger_gradient" with
        | some g => ["   → Gradient: " ++ pyStr g]
        | Option.none => [])
   | Option.none => []) ++
  (match dgetTruthy comp "button_add_bg" with
   | some v =>
       ["\n➕ ADD/CREATE BUTTONS:",
        "   → Background: bg-[" ++ pyStr v ++ "]",
        "   → Border: border-" ++ pyGetStr comp "button_add_border_style" "dashed" ++
          " border-[" ++
          ((((pyGetStr comp "button_add_border" "#3F3F46").replace
            "1px dashed " "").replace "1px dotted " "").replace
            "1px solid " "") ++ "]"]
   | Option.none => [])

/-- Lines 179-227: button rules — `button_variants` branch, else
`components` branch, else nothing. -/
def buttonRulesSection (dna : List (String × PyVal)) : List String :=
  match dlookup dna "button_variants" with
  | some bvv =>
      let bv := dgetDict (some bvv)
      primaryButtonLines dna bv ++ dangerButtonLines bv ++ addButtonLines bv
  | Option.none =>
      match dlookup dna "components" with
      | some compv => componentsButtonLines (dgetDict (some compv))
      | Option.none => []

/-- Lines 230-241: navbar active-state rules. -/
def navbarRulesSection (dna : List (String × PyVal)) : List String :=
  match dlookup dna "navbar" with
  | some nv =>
      let navbar := dgetDict (some nv)
      ["\n📍 NAVBAR ACTIVE STATE (CRITICAL for visual consistency):"] ++
      (match dgetTruthy navbar "item_bg_active" with
       | some v => ["   → Active item background: bg-[" ++ pyStr v ++ "]"]
       | Option.none => []) ++
      (match dgetTruthy navbar "item_text_active" with
       | some v => ["   → Active item text: text-[" ++ pyStr v ++ "]"]
       | Option.none => []) ++
      (match dgetTruthy navbar "active_border_bottom" with
       | some v =>
           if (match v with | .str s => s == "none" | _ => false) then []
           else ["   → Active indicator (bottom border): " ++ pyStr v,
                 "   → Use: border-b-2 border-[#...] on active tab"]
       | Option.none => []) ++
      (match dgetTruthy navbar "active_glow" with
       | some v => ["   → Active glow effect: " ++ pyStr v]
       | Option.none => [])
  | Option.none => []

/-- Lines 244-251: shadow rules. -/
def shadowRulesSection (dna : List (String × PyVal)) : List String :=
  match dlookup dna "effects" with
  | some ev =>
      let effects := dgetDict (some ev)
      ["\n🌑 SHADOWS (important for depth and visual hierarchy):"] ++
      (match dgetTruthy effects "header_drop_shadow" with
       | some v => ["   → Header shadow: shadow-[" ++ pyStr v ++ "]",
                    "   → MUST add shadow below header to separate from content!"]
       | Option.none => []) ++
      (match dgetTruthy effects "card_shadow" with
       | some v => ["   → Card shadow: shadow-[" ++ pyStr v ++ "]"]
       | Option.none => [])
  | Option.none => []

/-- Lines 254-263: header styling rules. -/
def headerRulesSection (dna : List (String × PyVal)) : List String :=
  match dlookup dna "header" with
  | some hv =>
      let header := dgetDict (some hv)
      ["\n🔝 HEADER STYLING:"] ++
      (match dgetTruthy header "drop_shadow" with
       | some v => ["   → Drop shadow: " ++ pyStr v,
                    "   → Add shadow-[0_4px_12px_rgba(0,0,0,0.5)] or similar!"]
       | Option.none => []) ++
      (match dgetTruthy header "notification_badge_color" with
       | some v => ["   → Notification badge: bg-[" ++ pyStr v ++ "]"]
       | Option.none => []) ++
      (match dgetTruthy header "user_avatar_bg" with
       | some v => ["   → Avatar background: bg-[" ++ pyStr v ++ "]"]
       | Option.none => [])
  | Option.none => []

/-- Lines 266-276: accent-color summary. -/
def accentColorsSection (dna : List (String × PyVal)) : List String :=
  match dlookup dna "accent_colors" with
  | some av =>
      let ac := dgetDict (some av)
      ["\n🎨 ACCENT COLOR QUICK REFERENCE:"] ++
      (match dgetTruthy ac "primary_blue" with
       | some v => ["   → Primary (buttons, active): " ++ pyStr v]
       | Option.none => []) ++
      (match dgetTruthy ac "danger_red" with
       | some v => ["   → Danger (destructive actions): " ++ pyStr v]
       | Option.none => []) ++
      (match dgetTruthy ac "success_green" with
       | some v => ["   → Success (confirmations): " ++ pyStr v]
       | Option.none => []) ++
      (match dgetTruthy ac "purple_accent" with
       | some v => ["   → Purple (avatars, badges): " ++ pyStr v]
       | Option.none => [])
  | Option.none => []

/-- Lines 281-295: typography (presence tests, not truthiness). -/
def typographySection (dna : List (String × PyVal)) : List String :=
  match dlookup dna "typography" with
  | some tv =>
      let typo := dgetDict (some tv)
      ["\n📝 TYPOGRAPHY:"] ++
      (match dlookup typo "font_family" with
       | some v => ["  - Font family: " ++ pyStr v]
       | Option.none => []) ++
      (match dlookup typo "heading_weight" with
       | some v => ["  - Heading weight: " ++ pyStr v]
       | Option.none => []) ++
      (match dlookup typo "body_weight" with
       | some v => ["  - Body weight: " ++ pyStr v]
       | Option.none => []) ++
      (match dlookup typo "heading_sizes" with
       | some hs => "  - Heading sizes:" ::
           (dgetDict (some hs)).map fun kv => "      " ++ kv.1 ++ ": " ++ pyStr kv.2
       | Option.none => []) ++
      (match dlookup typo "body_size" with
       | some v => ["  - Body size: " ++ pyStr v]
       | Option.none => [])
  | Option.none => []

/-- Lines 297-301: spacing. -/
def spacingSection (dna : List (String × PyVal)) : List String :=
  match dlookup dna "spacing" with
  | some sv =>
      "\n📏 SPACING:" ::
      (dgetDict (some sv)).map fun kv =>
        "  - " ++ pyTitle (kv.1.replace "_" " ") ++ ": " ++ pyStr kv.2
  | Option.none => []

/-- Lines 303-307: component styling. -/
def componentStylingSection (dna : List (String × PyVal)) : List String :=
  match dlookup dna "components" with
  | some cv =>
      "\n🔲 COMPONENT STYLING:" ::
      (dgetDict (some cv)).map fun kv =>
        "  - " ++ pyTitle (kv.1.replace "_" " ") ++ ": " ++ pyStr kv.2
  | Option.none => []

/-- Lines 316-325: the sidebar part of the layout template. -/
def sidebarLines (layout : List (String × PyVal)) : List String :=
  match dlookup layout "sidebar" with
  | some (.dict sidebar) =>
      if pyTruthyOpt (dlookup sidebar "exists") then
        ["  - SIDEBAR: " ++ pyGetStr sidebar "position" "left" ++
          " side, width " ++ pyGetStr sidebar "width" "w-64" ++ ", " ++
          pyGetStr sidebar "style" "dark" ++ " style"] ++
        (if pyTruthyOpt (dlookup sidebar "has_logo") then
          ["    • Include logo/branding at top of sidebar"] else []) ++
        (if pyTruthyOpt (dlookup sidebar "has_nav_items") then
          ["    • Include navigation menu items"] else [])
      else ["  - SIDEBAR: None (no sidebar in this design)"]
  | _ => []

/-- Lines 327-339: the header part of the layout template. -/
def headerLayoutLines (layout : List (String × PyVal)) : List String :=
  match dlookup layout "header" with
  | some (.dict header) =>
      if pyTruthyOpt (dlookup header "exists") then
        ["  - HEADER: height " ++ pyGetStr header "height" "h-16" ++
          ", position " ++ pyGetStr header "style" "sticky"] ++
        (let features :=
          (if pyTruthyOpt (dlookup header "has_breadcrumbs") then
            ["breadcrumbs"] else []) ++
          (if pyTruthyOpt (dlookup header "has_search") then
            ["search bar"] else []) ++
          (if pyTruthyOpt (dlookup header "has_user_menu") then
            ["user menu/avatar"] else [])
         if features.isEmpty then []
         else ["    • Header should include: " ++
           String.intercalate ", " features])
      else []
  | _ => []

/-- Lines 341-343: the content-area part of the layout template. -/
def contentAreaLines (layout : List (String × PyVal)) : List String :=
  match dlookup layout "content_area" with
  | some (.dict content) =>
      ["  - CONTENT AREA: max-width " ++ pyGetStr content "max_width" "max-w-7xl" ++
        ", padding " ++ pyGetStr content "padding" "p-6"]
  | _ => []

/-- Lines 310-343: the layout-template section. -/
def layoutTemplateSection (dna : List (String × PyVal)) : List String :=
  match dlookup dna "layout_template" with
  | some lv =>
      let layout := dgetDict (some lv)
      ["\n📐 LAYOUT TEMPLATE (CRITICAL - follow this structure!):"] ++
      (match dlookup layout "page_structure" with
       | some v => ["  - Page structure: " ++ pyStr v]
       | Option.none => []) ++
      sidebarLines layout ++ headerLayoutLines layout ++ contentAreaLines layout
  | Option.none => []

/-- The fixed `pattern_map` of lines 349-357. -/
def patternMap : List (String × String) :=
  [("card_layout", "Card arrangement"), ("grid_columns", "Grid columns"),
   ("table_style", "Table style"), ("form_layout", "Form layout"),
   ("section_headers", "Section headers"), ("empty_states", "Empty states"),
   ("loading_states", "Loading states")]

/-- Lines 346-360: common UI patterns. -/
def commonPatternsSection (dna : List (String × PyVal)) : List String :=
  match dlookup dna "common_patterns" with
  | some pv =>
      let patterns := dgetDict (some pv)
      "\n🧩 COMMON UI PATTERNS (use these patterns!):" ::
      patternMap.filterMap fun kl =>
        match dgetTruthy patterns kl.1 with
        | some v => some ("  - " ++ kl.2 ++ ": " ++ pyStr v)
        | Option.none => Option.none
  | Option.none => []

/-- The fixed `ui_map` of lines 366-372. -/
def uiMap : List (String × String) :=
  [("navigation_style", "Navigation style"),
   ("data_display", "Data display method"),
   ("action_placement", "Action button placement"),
   ("status_indicators", "Status indicators"),
   ("icon_style", "Icon style")]

/-- Lines 363-375: UI element patterns. -/
def uiPatternsSection (dna : List (String × PyVal)) : List String :=
  match dlookup dna "ui_patterns" with
  | some uv =>
      let ui := dgetDict (some uv)
      "\n🎯 UI ELEMENT PATTERNS:" ::
      uiMap.filterMap fun kl =>
        match dgetTruthy ui kl.1 with
        | some v => some ("  - " ++ kl.2 ++ ": " ++ pyStr v)
        | Option.none => Option.none
  | Option.none => []

/-- Lines 377-383: design mood. -/
def moodSection (dna : List (String × PyVal)) : List String :=
  match dlookup dna "mood" with
  | some mv =>
      let mood := dgetDict (some mv)
      ["\n✨ DESIGN MOOD:"] ++
      (match dlookup mood "overall" with
       | some v => ["  - Overall style: " ++ pyStr v]
       | Option.none => []) ++
      (match dlookup mood "feeling" with
       | some v => ["  - Feeling: " ++ pyStr v]
       | Option.none => [])
  | Option.none => []

/-- Embeds `has_component_templates()` (tool_state.py lines 153-156): stored and
non-empty. -/
def hasComponentTemplates : Option (List (String × String)) → Bool
  | some d => !d.isEmpty
  | Option.none => false

/-- Python `templates.get(key)` under a truthiness test. -/
def templateGet (t : List (String × String)) (key : String) : Option String :=
  match dlookup t key with
  | some s => if s = "" then Option.none else some s
  | Option.none => Option.none

/-- Lines 388-416: the component-template blocks. -/
def templatesSection (t : Option (List (String × String))) : List String :=
  if hasComponentTemplates t then
    let d := t.getD []
    ["\n=== 🎨 COMPONENT TEMPLATES - USE THESE EXACT COMPONENTS! ===\n",
     "These templates are extracted from the uploaded designs. USE THEM EXACTLY.\n"] ++
    (match templateGet d "header_code" with
     | some code =>
         ["### HEADER TEMPLATE (include this EXACTLY in your component):",
          "```tsx", code, "```\n"]
     | Option.none => []) ++
    (match templateGet d "navbar_code" with
     | some code =>
         ["### NAVBAR TEMPLATE (include this EXACTLY, pass activeStep prop):",
          "```tsx", code, "```\n"]
     | Option.none => []) ++
    (match templateGet d "layout_code" with
     | some code =>
         ["### LAYOUT WRAPPER (your content goes in the \x7bchildren\x7d slot):",
          "```tsx", code, "```\n"]
     | Option.none => []) ++
    ["=== END COMPONENT TEMPLATES ===\n",
     "CRITICAL: Your generated screen MUST:",
     "1. Use the EXACT HeaderTemplate code - don\x27t modify it",
     "2. Use the EXACT NavbarTemplate code - only change activeStep prop",
     "3. Put your screen content inside the LayoutTemplate",
     "4. The header and navbar must look IDENTICAL to the reference images\n"]
  else []

/-- Lines 418-425: the closing checklist. -/
def criticalInstructions (hasTemplates : Bool) : List String :=
  ["CRITICAL INSTRUCTIONS:",
   "1. Use the EXACT hex color codes provided, not generic Tailwind colors",
   "2. Follow the LAYOUT TEMPLATE structure exactly (sidebar position, header style, etc.)",
   "3. Apply the UI PATTERNS consistently (card layouts, navigation style, etc.)"] ++
  (if hasTemplates then
    ["4. USE THE COMPONENT TEMPLATES EXACTLY - they ensure visual consistency\n"]
  else ["\n"])

/-- The full `parts` list of `_format_business_dna_for_prompt` for a
non-empty DNA dict, in the append order of the source. -/
def formatParts (dna : List (String × PyVal))
    (templates : Option (List (String × String))) : List String :=
  ["\n\n=== 🧬 BUSINESS DNA - APPLY THIS DESIGN SYSTEM! ===\n",
   "You MUST use these exact design specifications from the uploaded reference images:\n"] ++
  colorPaletteSection dna ++
  ["\n\n🚨 CRITICAL COLOR RULES - MUST FOLLOW EXACTLY 🚨", eq60] ++
  buttonRulesSection dna ++
  navbarRulesSection dna ++
  shadowRulesSection dna ++
  headerRulesSection dna ++
  accentColorsSection dna ++
  ["\n" ++ eq60, "END CRITICAL COLOR RULES\n"] ++
  typographySection dna ++
  spacingSection dna ++
  componentStylingSection dna ++
  layoutTemplateSection dna ++
  commonPatternsSection dna ++
  uiPatternsSection dna ++
  moodSection dna ++
  ["\n=== END BUSINESS DNA ===\n"] ++
  templatesSection templates ++
  criticalInstructions (hasComponentTemplates templates)

/-- Embeds `_format_business_dna_for_prompt` (code_generator.py lines 153-427). -/
def format_business_dna_for_prompt (dna : List (String × PyVal))
    (templates : Option (List (String × String))) : String :=
  if dna.isEmpty then "" else pyJoin "\n" (formatParts dna templates)

/-- The shared tool-state read by the formatter (component templates) plus
the token store, to state side-effect freedom. -/
structure SharedState where
  componentTemplates : Option (List (String × String))
  tokensStore : List (String × PyVal)

/-- A call of the formatter as it executes against the shared state: the
function only reads `component_templates` and writes nothing (lines 153-427
contain no assignment to any module-level store). -/
def runFormatter (dna : List (String × PyVal)) (st : SharedState) :
    String × SharedState :=
  (format_business_dna_for_prompt dna st.componentTemplates, st)

/-! ## Concrete sample inputs for counterexamples and witnesses -/

/-- A completed step, as `generate_workflow_plan` would create it and a
later update complete it. -/
def demoStep1 : Step :=
  ⟨"step-1", "Login", "Login screen", "complete", Option.none, Option.none⟩

def demoStep2 : Step :=
  ⟨"step-2", "Dashboard", "Dashboard screen", "pending", Option.none, Option.none⟩

def demoWorkflow : Workflow :=
  ⟨"Build app", [demoStep1, demoStep2], Option.none⟩

def demoPlans : List (String × Workflow) := [("workflow_1", demoWorkflow)]

/-- A plan whose only step is `in_progress`. -/
def demoStepInProgress : Step :=
  ⟨"step-1", "Login", "Login screen", "in_progress", Option.none, Option.none⟩

def demoPlansInProgress : List (String × Workflow) :=
  [("workflow_2", ⟨"Build app", [demoStepInProgress], Option.none⟩)]

/-- A DNA document whose `button_variants` field carries no `primary`
sub-field. -/
def dnaNoPrimary : List (String × PyVal) := [("button_variants", .dict [])]

/-- A DNA document with an empty `primary` button-variant dict (no `bg`)
and no `colors.primary_accent`. -/
def dnaEmptyPrimary : List (String × PyVal) :=
  [("button_variants", .dict [("primary", .dict [])])]

/-! ## Lemmas and claim theorems -/

@[simp] theorem dlookup_nil {α : Type} (key : String) :
    dlookup ([] : List (String × α)) key = Option.none := rfl

@[simp] theorem dlookup_cons {α : Type} (k : String) (v : α) (rest) (key) :
    dlookup ((k, v) :: rest) key =
      if k = key then some v else dlookup rest key := rfl

theorem dlookup_dset_self {α : Type} (d : List (String × α)) (key : String)
    (v : α) : dlookup (dset d key v) key = some v := by
  induction d with
  | nil => simp [dset]
  | cons kv rest ih =>
    obtain ⟨k, w⟩ := kv
    by_cases hk : k = key
    · simp [dset, hk]
    · simp [dset, hk, ih]

theorem dlookup_dset_ne {α : Type} (d : List (String × α)) (key key' : String)
    (v : α) (h : key ≠ key') : dlookup (dset d key v) key' = dlookup d key' := by
  induction d with
  | nil => simp [dset, h]
  | cons kv rest ih =>
    obtain ⟨k, w⟩ := kv
    by_cases hk : k = key
    · have hk' : k ≠ key' := fun hc => h (hk ▸ hc ▸ rfl)
      simp [dset, hk, hk', h]
    · by_cases hk' : k = key'
      · simp [dset, hk, hk', Ne.symm h]
      · simp [dset, hk, hk', ih]

theorem dlookup_isSome_dset {α : Type} (d : List (String × α))
    (key key' : String) (v : α) (h : (dlookup d key').isSome) :
    (dlookup (dset d key v) key').isSome := by
  by_cases hk : key = key'
  · subst hk; simp [dlookup_dset_self]
  · rwa [dlookup_dset_ne _ _ _ _ hk]

theorem updateStepList_split (sid st : String) (lc ln : Option String)
    (pre post : List Step) (s : Step)
    (hpre : ∀ t ∈ pre, t.id ≠ sid) (hid : s.id = sid) :
    updateStepList sid st lc ln (pre ++ s :: post) =
      (pre ++ updateOneStep st lc ln s :: post, true) := by
  induction pre with
  | nil => simp [updateStepList, hid]
  | cons t rest ih =>
    have ht : t.id ≠ sid := hpre t (by simp)
    have hrest := ih fun u hu => hpre u (by simp [hu])
    simp [updateStepList, ht, hrest]

theorem updateStepList_not_found (sid st : String) (lc ln : Option String)
    (steps : List Step) (h : ∀ t ∈ steps, t.id ≠ sid) :
    updateStepList sid st lc ln steps = (steps, false) := by
  induction steps with
  | nil => rfl
  | cons t rest ih =>
    have ht : t.id ≠ sid := h t (by simp)
    have hrest := ih fun u hu => h u (by simp [hu])
    simp [updateStepList, ht, hrest]

theorem updateOneStep_complete (st : String) (lc ln : Option String)
    (s : Step) (h : s.status = "complete") :
    (updateOneStep st lc ln s).status = "complete" := by
  by_cases hst : st = "complete"
  · simp [updateOneStep, hst]
  · simp [updateOneStep, h, hst]

theorem updateStepList_preserves_complete (sid st : String)
    (lc ln : Option String) (steps : List Step) :
    List.Forall₂ (fun a b => a.status = "complete" → b.status = "complete")
      steps (updateStepList sid st lc ln steps).1 := by
  induction steps with
  | nil => simp [updateStepList]
  | cons t rest ih =>
    by_cases ht : t.id = sid
    · simp only [updateStepList, ht, if_pos rfl]
      exact List.Forall₂.cons (updateOneStep_complete st lc ln t)
        (List.forall₂_same.mpr fun x _ h => h)
    · simp only [updateStepList, ht, if_neg ht]
      exact List.Forall₂.cons (fun h => h) ih

theorem updateOneStep_id (st : String) (lc ln : Option String) (s : Step) :
    (updateOneStep st lc ln s).id = s.id := by
  unfold updateOneStep; split <;> rfl

theorem find?_id_split (sid : String) (pre post : List Step) (s : Step)
    (hpre : ∀ t ∈ pre, t.id ≠ sid) (hid : s.id = sid) :
    ((pre ++ s :: post).find? fun t => t.id == sid) = some s := by
  induction pre with
  | nil => simp [List.find?, hid]
  | cons t rest ih =>
    have ht : t.id ≠ sid := hpre t (by simp)
    have hrest := ih fun u hu => hpre u (by simp [hu])
    rw [List.cons_append, List.find?_cons_of_neg _ (by simpa using ht)]
    exact hrest

theorem dlookup_dupdate_not_mem {α : Type} (d us : List (String × α))
    (k : String) (h : k ∉ us.map Prod.fst) :
    dlookup (dupdate d us) k = dlookup d k := by
  induction us generalizing d with
  | nil => rfl
  | cons kv rest ih =>
    have hk : k ≠ kv.1 := by
      intro hc; exact h (by simp [hc])
    have hrest : k ∉ rest.map Prod.fst := fun hc => h (by simp [hc])
    calc dlookup (dupdate d (kv :: rest)) k
        = dlookup (dupdate (dset d kv.1 kv.2) rest) k := rfl
      _ = dlookup (dset d kv.1 kv.2) k := ih _ hrest
      _ = dlookup d k := dlookup_dset_ne _ _ _ _ (Ne.symm hk)

theorem dlookup_dupdate_mem {α : Type} (d us : List (String × α))
    (k : String) (v : α) (hnodup : (us.map Prod.fst).Nodup)
    (h : (k, v) ∈ us) : dlookup (dupdate d us) k = some v := by
  induction us generalizing d with
  | nil => cases h
  | cons kv rest ih =>
    rw [List.map_cons] at hnodup
    have hnodup' := List.nodup_cons.mp hnodup
    rcases List.mem_cons.mp h with rfl | hmem
    · calc dlookup (dupdate d ((k, v) :: rest)) k
          = dlookup (dupdate (dset d k v) rest) k := rfl
        _ = dlookup (dset d k v) k :=
            dlookup_dupdate_not_mem _ _ _ hnodup'.1
        _ = some v := dlookup_dset_self _ _ _
    · exact ih _ hnodup'.2 hmem

theorem mem_pyJoin_isInfix (sep : String) (l : List String) (a : String)
    (h : a ∈ l) : a.data <:+: (pyJoin sep l).data := by
  induction l with
  | nil => cases h
  | cons x xs ih =>
    cases xs with
    | nil =>
      have : a = x := by simpa using h
      subst this; exact List.infix_refl _
    | cons y ys =>
      rcases List.mem_cons.mp h with rfl | hmem
      · have : (pyJoin sep (a :: y :: ys)).data =
            a.data ++ (sep.data ++ (pyJoin sep (y :: ys)).data) := by
          show (a ++ sep ++ pyJoin sep (y :: ys)).data = _
          simp [String.data_append]
        rw [this]
        have hp := List.prefix_append a.data (sep.data ++ (pyJoin sep (y :: ys)).data)
        exact hp.isInfix
      · have hrec := ih hmem
        have : (pyJoin sep (x :: y :: ys)).data =
            (x.data ++ sep.data) ++ (pyJoin sep (y :: ys)).data := by
          show (x ++ sep ++ pyJoin sep (y :: ys)).data = _
          simp [String.data_append]
        rw [this]
        exact List.IsInfix.trans hrec (List.IsSuffix.isInfix (List.suffix_append _ _))

theorem defaultTokens_isSome (x y : PyVal) (c : String) :
    (dlookup (defaultTokens x) c).isSome =
      (dlookup (defaultTokens y) c).isSome := by
  simp only [defaultTokens, dlookup]
  split_ifs <;> rfl

theorem update_design_tokens_preserves_keys
    (store : List (String × PyVal)) (category : String)
    (updates : List (String × PyVal)) (merge : Bool) (now : String)
    (c : String) (h : (dlookup store c).isSome) :
    (dlookup (update_design_tokens store category updates merge now).2 c).isSome := by
  unfold update_design_tokens
  by_cases hmem : dmem store category = true
  · rw [if_neg (not_not_intro hmem)]
    dsimp only
    have hset : ∀ v : PyVal,
        (dlookup (dset store category v) c).isSome :=
      fun v => dlookup_isSome_dset _ _ _ _ h
    have hlast : ∀ s : List (String × PyVal),
        (dlookup s c).isSome → (dlookup (setLastUpdated s now) c).isSome := by
      intro s hs
      unfold setLastUpdated
      cases hlook : dlookup s "metadata" with
      | none => exact hs
      | some v =>
        cases v with
        | dict m => exact dlookup_isSome_dset _ _ _ _ hs
        | str sv => exact hs
        | int iv => exact hs
        | floatLit fv => exact hs
        | bool bv => exact hs
        | noneV => exact hs
        | list lv => exact hs
    by_cases hm : merge = true
    · rw [if_pos hm]
      cases hlook : dlookup store category with
      | none => exact hlast _ (hset _)
      | some v =>
        cases v with
        | dict d => exact hlast _ (hset _)
        | str sv => exact hlast _ (hset _)
        | int iv => exact hlast _ (hset _)
        | floatLit fv => exact hlast _ (hset _)
        | bool bv => exact hlast _ (hset _)
        | noneV => exact hlast _ (hset _)
        | list lv => exact hlast _ (hset _)
    · rw [if_neg hm]
      exact hlast _ (hset _)
  · rw [if_pos hmem]
    exact h

theorem runTokenOps_preserves_default_keys (ops : List TokenOp)
    (store : List (String × PyVal))
    (hinv : ∀ c, (dlookup initialTokensStore c).isSome →
      (dlookup store c).isSome) :
    ∀ c, (dlookup initialTokensStore c).isSome →
      (dlookup (runTokenOps store ops) c).isSome := by
  induction ops generalizing store with
  | nil => exact hinv
  | cons op rest ih =>
    refine ih (runTokenOp store op) ?_
    intro c hc
    cases op with
    | update cat us m now =>
        exact update_design_tokens_preserves_keys store cat us m now c (hinv c hc)
    | reset now =>
        show (dlookup (defaultTokens (.str now)) c).isSome
        have := defaultTokens_isSome PyVal.noneV (PyVal.str now) c
        exact this ▸ hc

/-- Claim C2, counterexample: the regression guard of
`update_workflow_step` only protects the `complete` status.  A step whose
stored status is `in_progress` is moved back to `pending` on request, so
the observed status sequence `in_progress, pending` is decreasing in
pending < in_progress < complete, contradicting the claimed monotonicity. -/
theorem claim_C2_counterexample :
    stepStatus demoPlansInProgress "workflow_2" "step-1" = some "in_progress" ∧
    stepStatus (update_workflow_step demoPlansInProgress "workflow_2" "step-1"
        "pending" Option.none Option.none).2 "workflow_2" "step-1" =
      some "pending" ∧
    statusRank "pending" < statusRank "in_progress" :=
  ⟨rfl, rfl, by decide⟩

/-- Claim C2, amended: statuses are only guarded against leaving
`complete` — once a step's stored status is `complete`, no
`update_workflow_step` call changes it (a `complete → pending` or
`complete → in_progress` request leaves it at `complete`); a step that is
merely `in_progress` may still be moved back to `pending`. -/
theorem claim_C2_amended (plans : List (String × Workflow))
    (wid sid st : String) (lc ln : Option String) (wid' : String)
    (w w' : Workflow) (hw : dlookup plans wid' = some w)
    (hw' : dlookup (update_workflow_step plans wid sid st lc ln).2 wid' =
      some w') :
    List.Forall₂ (fun a b => a.status = "complete" → b.status = "complete")
      w.steps w'.steps := by
  have hrefl : List.Forall₂
      (fun a b : Step => a.status = "complete" → b.status = "complete")
      w.steps w.steps :=
    List.forall₂_same.mpr fun x _ h => h
  unfold update_workflow_step at hw'
  cases hwid : dlookup plans wid with
  | none =>
      rw [hwid] at hw'
      dsimp only at hw'
      rw [hw] at hw'
      cases hw'
      exact hrefl
  | some w0 =>
      rw [hwid] at hw'
      dsimp only at hw'
      by_cases hr : (updateStepList sid st lc ln w0.steps).2 = true
      · rw [if_pos hr] at hw'
        dsimp only at hw'
        by_cases hww : wid = wid'
        · subst hww
          rw [dlookup_dset_self] at hw'
          cases hw'
          rw [hw] at hwid
          cases hwid
          exact updateStepList_preserves_complete sid st lc ln w.steps
        · rw [dlookup_dset_ne _ _ _ _ hww, hw] at hw'
          cases hw'
          exact hrefl
      · rw [if_neg hr] at hw'
        dsimp only at hw'
        rw [hw] at hw'
        cases hw'
        exact hrefl

/-- Witness for the amended C2 theorem at a concrete input: requesting
`pending` on the completed `step-1` of the demo plan leaves every
completed step completed. -/
theorem claim_C2_amended_witness :
    List.Forall₂ (fun a b => a.status = "complete" → b.status = "complete")
      demoWorkflow.steps demoWorkflow.steps :=
  claim_C2_amended demoPlans "workflow_1" "step-1" "pending" Option.none
    Option.none "workflow_1" demoWorkflow demoWorkflow rfl (by rfl)

/-- Claim C3: an update requesting a non-`complete` status on a `complete`
step leaves the stored status at `complete`, still applies the supplied
linked-component id and name, and returns a success envelope (no error). -/
theorem claim_C3_regression_guard (plans : List (String × Workflow))
    (wid sid st cid cname : String) (w : Workflow) (pre post : List Step)
    (s : Step) (hw : dlookup plans wid = some w)
    (hsteps : w.steps = pre ++ s :: post)
    (hpre : ∀ t ∈ pre, t.id ≠ sid) (hid : s.id = sid)
    (hcomplete : s.status = "complete") (hst : st ≠ "complete")
    (hcid : cid ≠ "") (hcname : cname ≠ "") :
    (update_workflow_step plans wid sid st (some cid) (some cname)).1.success
        = true ∧
    (update_workflow_step plans wid sid st (some cid) (some cname)).1.error
        = Option.none ∧
    dlookup (update_workflow_step plans wid sid st (some cid) (some cname)).2
        wid =
      some ⟨w.taskDescription,
        pre ++ (⟨s.id, s.title, s.description, "complete",
          some cid, some cname⟩ : Step) :: post,
        w.componentId⟩ := by
  have hupd : updateOneStep st (some cid) (some cname) s =
      ⟨s.id, s.title, s.description, "complete", some cid, some cname⟩ := by
    unfold updateOneStep applyLinked
    rw [if_pos ⟨hcomplete, hst⟩]
    dsimp only
    rw [if_neg hcid, if_neg hcname, hcomplete]
  unfold update_workflow_step
  rw [hw]
  dsimp only
  rw [hsteps, updateStepList_split sid st (some cid) (some cname) pre post s
    hpre hid]
  dsimp only
  rw [hupd]
  exact ⟨rfl, rfl, dlookup_dset_self _ _ _⟩

/-- Witness for C3 at a concrete input. -/
theorem claim_C3_witness :
    (update_workflow_step demoPlans "workflow_1" "step-1" "pending"
        (some "cmp-9") (some "LoginScreen")).1.success = true ∧
    (update_workflow_step demoPlans "workflow_1" "step-1" "pending"
        (some "cmp-9") (some "LoginScreen")).1.error = Option.none ∧
    dlookup (update_workflow_step demoPlans "workflow_1" "step-1" "pending"
        (some "cmp-9") (some "LoginScreen")).2 "workflow_1" =
      some ⟨demoWorkflow.taskDescription,
        [] ++ (⟨"step-1", "Login", "Login screen", "complete",
          some "cmp-9", some "LoginScreen"⟩ : Step) :: [demoStep2],
        demoWorkflow.componentId⟩ :=
  claim_C3_regression_guard demoPlans "workflow_1" "step-1" "pending"
    "cmp-9" "LoginScreen" demoWorkflow [] [demoStep2] demoStep1 rfl rfl
    (by simp) rfl rfl (by decide) (by decide) (by decide)

/-- Claim C9: an unknown `workflow_id` yields a failure envelope whose
message lists the known plan ids and leaves the store untouched; a known
`workflow_id` with an unknown `step_id` yields a failure envelope listing
that plan's step ids and leaves the store untouched. -/
theorem claim_C9_unknown_ids (plans : List (String × Workflow))
    (wid sid st : String) (lc ln : Option String) :
    (dlookup plans wid = Option.none →
      (update_workflow_step plans wid sid st lc ln).1.success = false ∧
      (update_workflow_step plans wid sid st lc ln).1.error =
        some ("Workflow \x27" ++ wid ++ "\x27 not found. Available: " ++
          pyListRepr (plans.map Prod.fst)) ∧
      (update_workflow_step plans wid sid st lc ln).2 = plans) ∧
    (∀ w, dlookup plans wid = some w → (∀ t ∈ w.steps, t.id ≠ sid) →
      (update_workflow_step plans wid sid st lc ln).1.success = false ∧
      (update_workflow_step plans wid sid st lc ln).1.error =
        some ("Step \x27" ++ sid ++ "\x27 not found in workflow. Available: "
          ++ pyListRepr (w.steps.map Step.id)) ∧
      (update_workflow_step plans wid sid st lc ln).2 = plans) := by
  constructor
  · intro hnone
    unfold update_workflow_step
    rw [hnone]
    exact ⟨rfl, rfl, rfl⟩
  · intro w hw hids
    unfold update_workflow_step
    rw [hw]
    dsimp only
    rw [updateStepList_not_found sid st lc ln w.steps hids]
    exact ⟨rfl, rfl, rfl⟩

/-- Witness for C9 at concrete inputs: a missing plan id and a missing
step id both fail with the id listings and leave the store unchanged. -/
theorem claim_C9_witness :
    ((update_workflow_step demoPlans "nope" "step-1" "complete" Option.none
        Option.none).1.success = false ∧
      (update_workflow_step demoPlans "nope" "step-1" "complete" Option.none
        Option.none).1.error =
        some ("Workflow \x27" ++ "nope" ++ "\x27 not found. Available: " ++
          pyListRepr (demoPlans.map Prod.fst)) ∧
      (update_workflow_step demoPlans "nope" "step-1" "complete" Option.none
        Option.none).2 = demoPlans) ∧
    ((update_workflow_step demoPlans "workflow_1" "step-9" "complete"
        Option.none Option.none).1.success = false ∧
      (update_workflow_step demoPlans "workflow_1" "step-9" "complete"
        Option.none Option.none).1.error =
        some ("Step \x27" ++ "step-9" ++
          "\x27 not found in workflow. Available: " ++
          pyListRepr (demoWorkflow.steps.map Step.id)) ∧
      (update_workflow_step demoPlans "workflow_1" "step-9" "complete"
        Option.none Option.none).2 = demoPlans) :=
  ⟨(claim_C9_unknown_ids demoPlans "nope" "step-1" "complete" Option.none
      Option.none).1 rfl,
   (claim_C9_unknown_ids demoPlans "workflow_1" "step-9" "complete"
      Option.none Option.none).2 demoWorkflow rfl (by decide)⟩

/-- Claim C10: when a step stored as `complete` receives a request for a
different status, the envelope still reports `success = True` and
`new_status` equal to the requested status, although the stored status
remains `complete` — the reported `new_status` differs from the stored
one. -/
theorem claim_C10_reported_status (plans : List (String × Workflow))
    (wid sid st : String) (lc ln : Option String) (w : Workflow)
    (pre post : List Step) (s : Step) (hw : dlookup plans wid = some w)
    (hsteps : w.steps = pre ++ s :: post)
    (hpre : ∀ t ∈ pre, t.id ≠ sid) (hid : s.id = sid)
    (hcomplete : s.status = "complete") (hst : st ≠ "complete") :
    (update_workflow_step plans wid sid st lc ln).1.success = true ∧
    (update_workflow_step plans wid sid st lc ln).1.newStatus = some st ∧
    stepStatus (update_workflow_step plans wid sid st lc ln).2 wid sid =
      some "complete" ∧
    (update_workflow_step plans wid sid st lc ln).1.newStatus ≠
      stepStatus (update_workflow_step plans wid sid st lc ln).2 wid sid := by
  unfold update_workflow_step
  rw [hw]
  dsimp only
  rw [hsteps, updateStepList_split sid st lc ln pre post s hpre hid]
  dsimp only
  rw [if_pos rfl]
  dsimp only
  have hfind : stepStatus (dset plans wid ⟨w.taskDescription,
      pre ++ updateOneStep st lc ln s :: post, w.componentId⟩) wid sid =
      some "complete" := by
    unfold stepStatus
    rw [dlookup_dset_self]
    dsimp only [Option.bind]
    rw [find?_id_split sid pre post (updateOneStep st lc ln s) hpre
      ((updateOneStep_id st lc ln s).trans hid)]
    dsimp only [Option.map]
    rw [updateOneStep_complete st lc ln s hcomplete]
  refine ⟨rfl, rfl, hfind, ?_⟩
  rw [hfind]
  intro hc
  exact hst (Option.some.inj hc)

/-- Witness for C10 at a concrete input: requesting `in_progress` on the
completed `step-1` reports `new_status = "in_progress"` while the stored
status stays `complete`. -/
theorem claim_C10_witness :
    (update_workflow_step demoPlans "workflow_1" "step-1" "in_progress"
        Option.none Option.none).1.success = true ∧
    (update_workflow_step demoPlans "workflow_1" "step-1" "in_progress"
        Option.none Option.none).1.newStatus = some "in_progress" ∧
    stepStatus (update_workflow_step demoPlans "workflow_1" "step-1"
        "in_progress" Option.none Option.none).2 "workflow_1" "step-1" =
      some "complete" ∧
    (update_workflow_step demoPlans "workflow_1" "step-1" "in_progress"
        Option.none Option.none).1.newStatus ≠
      stepStatus (update_workflow_step demoPlans "workflow_1" "step-1"
        "in_progress" Option.none Option.none).2 "workflow_1" "step-1" :=
  claim_C10_reported_status demoPlans "workflow_1" "step-1" "in_progress"
    Option.none Option.none demoWorkflow [] [demoStep2] demoStep1 rfl rfl
    (by simp) rfl rfl (by decide)

/-- Claim C4: the consistency formatter is deterministic, idempotent and
side-effect-free — for a fixed DNA document and shared state (component
templates and token store), two successive calls yield identical output
strings and the shared state is unchanged by both calls. -/
theorem claim_C4_formatter_pure (dna : List (String × PyVal))
    (st : SharedState) :
    (runFormatter dna st).1 = (runFormatter dna (runFormatter dna st).2).1 ∧
    (runFormatter dna st).2 = st ∧
    (runFormatter dna (runFormatter dna st).2).2 = st :=
  ⟨rfl, rfl, rfl⟩

/-- Claim C6, counterexample: updating the `metadata` category with
`merge=true` also overwrites the pre-existing `last_updated` key — which is
not among the update keys — with the current timestamp, because every
successful update refreshes `metadata.last_updated` (line 179).  So the
claim fails for the category `metadata`. -/
theorem claim_C6_counterexample :
    dlookup (dgetDict (dlookup initialTokensStore "metadata")) "last_updated"
      = some PyVal.noneV ∧
    "last_updated" ∉ ["name"] ∧
    dlookup (dgetDict (dlookup
        (update_design_tokens initialTokensStore "metadata"
          [("name", PyVal.str "My Design")] true "2024-01-01 00:00:00").2
        "metadata")) "last_updated" =
      some (PyVal.str "2024-01-01 00:00:00") ∧
    some (PyVal.str "2024-01-01 00:00:00") ≠ (some PyVal.noneV : Option PyVal) :=
  ⟨rfl, by decide, rfl, fun hc => PyVal.noConfusion (Option.some.inj hc)⟩

/-- Claim C6, amended: for every existing category other than `metadata`
(whose `last_updated` leaf is additionally refreshed on every update),
a `merge=true` update leaves every pre-existing key not among the update
keys bound to its previous value and sets exactly the update keys to the
given values. -/
theorem claim_C6_amended (store : List (String × PyVal)) (category : String)
    (d us : List (String × PyVal)) (now : String)
    (hcat : dlookup store category = some (.dict d))
    (hnodup : (us.map Prod.fst).Nodup) (hmeta : category ≠ "metadata") :
    (∀ k, k ∉ us.map Prod.fst →
      dlookup (dgetDict (dlookup
        (update_design_tokens store category us true now).2 category)) k =
        dlookup d k) ∧
    (∀ k v, (k, v) ∈ us →
      dlookup (dgetDict (dlookup
        (update_design_tokens store category us true now).2 category)) k =
        some v) := by
  have hmem : dmem store category = true := by
    unfold dmem; rw [hcat]; rfl
  have hkey : dlookup (update_design_tokens store category us true now).2
      category = some (.dict (dupdate d us)) := by
    unfold update_design_tokens
    rw [if_neg (not_not_intro hmem)]
    dsimp only
    rw [if_pos rfl, hcat]
    dsimp only
    unfold setLastUpdated
    rw [dlookup_dset_ne _ _ _ _ hmeta]
    cases hlook : dlookup store "metadata" with
    | none => exact dlookup_dset_self _ _ _
    | some v =>
      cases v with
      | dict m =>
          rw [dlookup_dset_ne _ _ _ _ (Ne.symm hmeta)]
          exact dlookup_dset_self _ _ _
      | str sv => exact dlookup_dset_self _ _ _
      | int iv => exact dlookup_dset_self _ _ _
      | floatLit fv => exact dlookup_dset_self _ _ _
      | bool bv => exact dlookup_dset_self _ _ _
      | noneV => exact dlookup_dset_self _ _ _
      | list lv => exact dlookup_dset_self _ _ _
  rw [hkey]
  exact ⟨fun k hk => dlookup_dupdate_not_mem d us k hk,
    fun k v hkv => dlookup_dupdate_mem d us k v hnodup hkv⟩

/-- Witness for the amended C6 theorem: the scenario of the claim —
updating `colors` with `{"primary": "#111111"}` from the defaults sets
`primary` and leaves `background` at `"#0f172a"`. -/
theorem claim_C6_amended_witness :
    dlookup (dgetDict (dlookup
      (update_design_tokens initialTokensStore "colors"
        [("primary", PyVal.str "#111111")] true "t").2 "colors"))
      "background" = some (PyVal.str "#0f172a") ∧
    dlookup (dgetDict (dlookup
      (update_design_tokens initialTokensStore "colors"
        [("primary", PyVal.str "#111111")] true "t").2 "colors"))
      "primary" = some (PyVal.str "#111111") :=
  ⟨((claim_C6_amended initialTokensStore "colors" defaultColors
      [("primary", PyVal.str "#111111")] "t" rfl (by decide)
      (by decide)).1 "background" (by decide)).trans rfl,
   (claim_C6_amended initialTokensStore "colors" defaultColors
      [("primary", PyVal.str "#111111")] "t" rfl (by decide)
      (by decide)).2 "primary" (PyVal.str "#111111")
      (List.mem_cons_self _ _)⟩

/-- Claim C7: category durability — starting from the default token
document, no sequence of `update_design_tokens` / `reset_design_tokens`
calls removes a category key that exists in the default document. -/
theorem claim_C7_category_durability (ops : List TokenOp) (c : String)
    (h : (dlookup initialTokensStore c).isSome = true) :
    (dlookup (runTokenOps initialTokensStore ops) c).isSome = true :=
  runTokenOps_preserves_default_keys ops initialTokensStore
    (fun _ hc => hc) c h

/-- Witness for C7 at a concrete input: after a reset, a merge update and
a whole-category replacement, the `colors` category still exists. -/
theorem claim_C7_witness :
    (dlookup (runTokenOps initialTokensStore
      [TokenOp.reset "t1",
       TokenOp.update "colors" [("primary", PyVal.str "#111111")] true "t2",
       TokenOp.update "colors" [] false "t3"]) "colors").isSome = true :=
  claim_C7_category_durability
    [TokenOp.reset "t1",
     TokenOp.update "colors" [("primary", PyVal.str "#111111")] true "t2",
     TokenOp.update "colors" [] false "t3"] "colors" rfl

/-- Claim C8: when the model response text is not valid JSON after fence
stripping (the abstracted `json.loads` returns no value), DNA extraction
does not fail: it yields a success outcome whose document contains a
`raw_analysis` field holding the raw response text. -/
theorem claim_C8_graceful_degradation (parseJson : String → Option PyVal)
    (text : String) (n : Nat)
    (h : parseJson (stripCodeFences text).trim = Option.none) :
    (parseDnaResponse parseJson text n).success = true ∧
    ∃ doc, (parseDnaResponse parseJson text n).businessDna = some doc ∧
      dlookup doc "raw_analysis" = some (PyVal.str text) := by
  unfold parseDnaResponse
  dsimp only
  rw [h]
  exact ⟨rfl, dset [("raw_analysis", PyVal.str text)] "_metadata"
    (dnaMetadata n), rfl, rfl⟩

/-- Witness for C8 at a concrete input: a parser that rejects the plain
text response still produces the raw-text fallback document. -/
theorem claim_C8_witness :
    (parseDnaResponse (fun _ => Option.none) "Here is my analysis." 2).success
        = true ∧
    ∃ doc, (parseDnaResponse (fun _ => Option.none) "Here is my analysis."
        2).businessDna = some doc ∧
      dlookup doc "raw_analysis" =
        some (PyVal.str "Here is my analysis.") :=
  claim_C8_graceful_degradation (fun _ => Option.none)
    "Here is my analysis." 2 rfl

theorem isInfix_append_split {α : Type} (p a b : List α)
    (h : p <:+: a ++ b) :
    p <:+: a ∨ p <:+: b ∨
      ∃ p₁ p₂, p = p₁ ++ p₂ ∧ p₁ ≠ [] ∧ p₂ ≠ [] ∧ p₁ <:+ a ∧ p₂ <+: b := by
  obtain ⟨s, t, hst⟩ := h
  rw [List.append_assoc] at hst
  rcases List.append_eq_append_iff.mp hst with ⟨a', ha, hpt⟩ | ⟨c', hs, hb⟩
  · rcases List.append_eq_append_iff.mp hpt with ⟨x, hax, ht⟩ | ⟨c', hp, hbb⟩
    · left
      exact ⟨s, x, by rw [ha, hax, List.append_assoc]⟩
    · by_cases ha' : a' = []
      · subst ha'
        right; left
        rw [List.nil_append] at hp
        exact ⟨[], t, by rw [hbb, hp]; simp⟩
      · by_cases hc' : c' = []
        · subst hc'
          left
          rw [List.append_nil] at hp
          exact ⟨s, [], by rw [ha, hp]; simp⟩
        · right; right
          exact ⟨a', c', hp, ha', hc', ⟨s, ha.symm⟩, ⟨t, hbb.symm⟩⟩
  · right; left
    exact ⟨c', t, by rw [hb, List.append_assoc]⟩

/-- A pattern that is non-empty, shares no character with the separator and
is not an infix of any part is not an infix of the Python join of the
parts. -/
theorem not_isInfix_pyJoin (sep : String) (l : List String) (pat : String)
    (hpat : pat.data ≠ []) (hsepne : sep.data ≠ [])
    (hsep : ∀ c ∈ pat.data, c ∉ sep.data)
    (h : ∀ p ∈ l, ¬ pat.data <:+: p.data) :
    ¬ pat.data <:+: (pyJoin sep l).data := by
  induction l with
  | nil =>
    intro hc
    exact hpat (List.sublist_nil.mp hc.sublist)
  | cons x xs ih =>
    cases xs with
    | nil => exact h x (by simp)
    | cons y ys =>
      intro hc
      have hdata : (pyJoin sep (x :: y :: ys)).data =
          x.data ++ (sep.data ++ (pyJoin sep (y :: ys)).data) := by
        show (x ++ sep ++ pyJoin sep (y :: ys)).data = _
        simp [String.data_append]
      rw [hdata] at hc
      rcases isInfix_append_split _ _ _ hc with hx | hrest |
        ⟨p₁, p₂, hsplit, hp₁, hp₂, hsuf, hpre⟩
      · exact h x (by simp) hx
      · rcases isInfix_append_split _ _ _ hrest with hseps | hjoin |
          ⟨q₁, q₂, hqsplit, hq₁, hq₂, hqsuf, hqpre⟩
        · obtain ⟨c, hcmem⟩ := List.exists_mem_of_ne_nil _ hpat
          exact hsep c hcmem (hseps.sublist.subset hcmem)
        · exact ih (fun p hp => h p (List.mem_cons_of_mem _ hp)) hjoin
        · obtain ⟨c, hcq⟩ := List.exists_mem_of_ne_nil _ hq₁
          have hcpat : c ∈ pat.data := by
            rw [hqsplit]; exact List.mem_append_left _ hcq
          exact hsep c hcpat (hqsuf.sublist.subset hcq)
      · obtain ⟨c, p₂', rfl⟩ := List.exists_cons_of_ne_nil hp₂
        obtain ⟨t, ht⟩ := hpre
        obtain ⟨c₀, sd', hsd⟩ := List.exists_cons_of_ne_nil hsepne
        rw [hsd] at ht
        have hc0 : c = c₀ := by
          have := congrArg List.head? ht
          simpa using this
        have hcsep : c ∈ sep.data := by
          rw [hsd, hc0]; exact List.mem_cons_self _ _
        have hcpat : c ∈ pat.data := by
          rw [hsplit]
          exact List.mem_append_right _ (List.mem_cons_self _ _)
        exact hsep c hcpat hcsep

set_option maxRecDepth 4000 in
/-- Claim C1, counterexample: a DNA document whose `button_variants`
carries no `primary` sub-field.  The formatter emits no primary-button
background rule at all: neither the "NEVER white" instruction nor the
fallback constant `#4263EB` occurs anywhere in the output, because the
fallback only applies to a missing `bg` key inside a present
`button_variants.primary` dict (line 185), not to a missing primary
sub-field. -/
theorem claim_C1_counterexample :
    ¬ ("NEVER white".data <:+:
        (format_business_dna_for_prompt dnaNoPrimary Option.none).data) ∧
    ¬ ("#4263EB".data <:+:
        (format_business_dna_for_prompt dnaNoPrimary Option.none).data) := by
  have hparts : ∀ p ∈ formatParts dnaNoPrimary Option.none,
      ¬ ("NEVER white".data <:+: p.data) ∧
      ¬ ("#4263EB".data <:+: p.data) := by decide
  have hout : format_business_dna_for_prompt dnaNoPrimary Option.none =
      pyJoin "\n" (formatParts dnaNoPrimary Option.none) := rfl
  rw [hout]
  exact ⟨not_isInfix_pyJoin "\n" _ "NEVER white" (by decide) (by decide)
      (by decide) (fun p hp => (hparts p hp).1),
    not_isInfix_pyJoin "\n" _ "#4263EB" (by decide) (by decide)
      (by decide) (fun p hp => (hparts p hp).2)⟩

/-- Claim C1, amended: when the DNA carries a `button_variants.primary`
dict, the formatter always emits the primary-button rule mandating the
background and white text with the "NEVER white" instruction, and when the
`bg` sub-field is absent (and no `colors.primary_accent` is available) the
background falls back to the fixed constant `#4263EB`; when
`button_variants` or its `primary` sub-field is absent, the rule is
omitted. -/
theorem claim_C1_amended (dna : List (String × PyVal))
    (templates : Option (List (String × String)))
    (bv primary : List (String × PyVal))
    (hbv : dlookup dna "button_variants" = some (.dict bv))
    (hprimary : dlookup bv "primary" = some (.dict primary)) :
    ("   → Background: bg-[" ++ primaryBg dna primary ++
        "] - MUST be blue/accent, NEVER white!")
        ∈ formatParts dna templates ∧
    ("   → Background: bg-[" ++ primaryBg dna primary ++
        "] - MUST be blue/accent, NEVER white!").data
      <:+: (format_business_dna_for_prompt dna templates).data ∧
    "   → Text: text-white - ALWAYS white on colored buttons!"
        ∈ formatParts dna templates ∧
    ("   → Text: text-white - ALWAYS white on colored buttons!").data
      <:+: (format_business_dna_for_prompt dna templates).data ∧
    (dlookup primary "bg" = Option.none →
      dlookup (dgetDict (dlookup dna "colors")) "primary_accent" =
        Option.none →
      primaryBg dna primary = "#4263EB") := by
  have hmem1 : ("   → Background: bg-[" ++ primaryBg dna primary ++
      "] - MUST be blue/accent, NEVER white!")
      ∈ primaryButtonLines dna bv := by
    unfold primaryButtonLines
    rw [hprimary]
    dsimp only
    exact List.mem_cons_of_mem _ (List.mem_append_left _
      (List.mem_cons_self _ _))
  have hmem1t : "   → Text: text-white - ALWAYS white on colored buttons!"
      ∈ primaryButtonLines dna bv := by
    unfold primaryButtonLines
    rw [hprimary]
    dsimp only
    exact List.mem_cons_of_mem _ (List.mem_append_left _
      (List.mem_cons_of_mem _ (List.mem_cons_self _ _)))
  have hsec : ∀ a : String, a ∈ primaryButtonLines dna bv →
      a ∈ formatParts dna templates := by
    intro a ha
    have hmem2 : a ∈ buttonRulesSection dna := by
      unfold buttonRulesSection
      rw [hbv]
      dsimp only [dgetDict]
      exact List.mem_append_left _ (List.mem_append_left _ ha)
    unfold formatParts
    simp only [List.mem_append]
    tauto
  have hne : dna.isEmpty = false := by
    cases dna with
    | nil => simp [dlookup] at hbv
    | cons kv rest => rfl
  have hjoin : ∀ a : String, a ∈ formatParts dna templates →
      a.data <:+: (format_business_dna_for_prompt dna templates).data := by
    intro a ha
    unfold format_business_dna_for_prompt
    rw [if_neg (by simp [hne])]
    exact mem_pyJoin_isInfix "\n" _ _ ha
  refine ⟨hsec _ hmem1, hjoin _ (hsec _ hmem1), hsec _ hmem1t,
    hjoin _ (hsec _ hmem1t), ?_⟩
  intro hbg hacc
  unfold primaryBg
  rw [hbg, hacc]

/-- Witness for the amended C1 theorem: a DNA with an empty
`button_variants.primary` dict and no colors yields the never-white rule
in the output, with the background resolved to the `#4263EB` fallback. -/
theorem claim_C1_amended_witness :
    "   → Background: bg-[#4263EB] - MUST be blue/accent, NEVER white!"
        ∈ formatParts dnaEmptyPrimary Option.none ∧
    ("   → Background: bg-[#4263EB] - MUST be blue/accent, NEVER white!").data
      <:+:
      (format_business_dna_for_prompt dnaEmptyPrimary Option.none).data ∧
    "   → Text: text-white - ALWAYS white on colored buttons!"
        ∈ formatParts dnaEmptyPrimary Option.none ∧
    primaryBg dnaEmptyPrimary [] = "#4263EB" :=
  have h := claim_C1_amended dnaEmptyPrimary Option.none
    [("primary", PyVal.dict [])] [] rfl rfl
  ⟨h.1, h.2.1, h.2.2.1, h.2.2.2.2 rfl rfl⟩

end Hackathon
